import Mathlib

/-!
Shallow embedding of the vote-casting client in `assets/10kb.js` of the
10kb.club repository: the functions `tryvote`, `get_id`, `populate_votes`
and `vote_closure`, together with the browser state they operate on
(the DOM elements they touch, `localStorage`, outgoing HTTP requests and
`alert` status messages).

Strings are modelled as `List Char` so that the JavaScript string
operations used by the code (`split('-')`, regex match on `vote-`,
`.length`) can be reasoned about structurally.
-/

/-- Strings of the JavaScript program, modelled as character lists. -/
abbrev Str := List Char

/-- An event listener registered on an element via `addEventListener`.
`calls = true` models a handler of the form `(e) => closure()` that
actually invokes `vote_closure(site, vote)`; `calls = false` models the
handler `(e) => closure` (10kb.js line 59) whose body evaluates the
closure value without invoking it, so a click does nothing. -/
structure Handler where
  calls : Bool
  site : Str
  vote : Int
deriving Repr, DecidableEq

/-- A DOM element: its `id` attribute, CSS class, registered click
listeners (in registration order) and `innerHTML`. -/
structure Elem where
  id : Str
  className : Str
  listeners : List Handler
  innerHTML : Str
deriving Repr, DecidableEq

/-- The document: the list of `div` elements in document order. -/
abbrev Doc := List Elem

/-- The mutable browser state the script touches: the document and the
`localStorage` key `10kb_voter_id` (`none` = key absent / null). -/
structure World where
  doc : Doc
  store : Option Str
deriving Repr, DecidableEq

/-- An outgoing HTTP request issued by the script. -/
inductive Request where
  /-- `POST /id/` issued by `get_id`. -/
  | idReq : Request
  /-- `POST /vote/` with form fields `site_id`, `voter_id`, `vote`. -/
  | voteReq : Str → Str → Int → Request
  /-- `POST /votes/` with form fields `site_ids`, `voter_id`. -/
  | votesReq : List Str → Option Str → Request
deriving Repr, DecidableEq

/-- Parsed JSON body of an `/id/` response. -/
structure IdResp where
  code : Int
  voter_id : Str
  status : Str
deriving Repr, DecidableEq

/-- Parsed JSON body of a `/vote/` response. -/
structure VoteResp where
  code : Int
  status : Str
deriving Repr, DecidableEq

/-- Outcome of one `fetch` + `res.json()` round trip: `.error msg` models
a network exception or a malformed (unparseable) body, `.ok body` a
parsed response. -/
abbrev FetchOutcome (α : Type) := Except Str α

/-- `document.getElementById i`: the first element with the given id,
or `none` (JS `null`). -/
def getElementById (d : Doc) (i : Str) : Option Elem :=
  d.find? (fun e => e.id == i)

/-- Mutation of the element `getElementById` returns: update the first
element whose id is `i` with `f`. -/
def setById (d : Doc) (i : Str) (f : Elem → Elem) : Doc :=
  match d with
  | [] => []
  | e :: es => if e.id == i then f e :: es else e :: setById es i f

/-- `vote_closure(id, vote)` (10kb.js lines 138–142): a closure that,
when invoked, calls `tryvote(id, vote)`; modelled by the pair of
arguments the eventual `tryvote` call would receive. -/
def vote_closure (id : Str) (vote : Int) : Str × Int := (id, vote)

/-- The requests a single click (activation) on an element triggers:
each listener whose handler actually invokes its closure contributes
one `tryvote(site, vote)` call, in registration order. -/
def clickRequests (e : Elem) : List (Str × Int) :=
  e.listeners.filterMap (fun h => if h.calls then some (vote_closure h.site h.vote) else none)

/-- The string literal `"vote-"` used in element id templates and in the
discovery regex. -/
def voteDash : Str := 'v' :: 'o' :: 't' :: 'e' :: '-' :: []

/-- JavaScript truthiness test used by `get_id` (line 70):
`id && id.length > 0` — the stored value is non-null and non-empty. -/
def usableId : Option Str → Bool
  | some s => !s.isEmpty
  | none => false

/-- Result of a `get_id` call: final browser state, requests issued,
status messages surfaced via `update_status` (i.e. `alert`), and the
JS return value (`none` = `null`). -/
structure GetIdResult where
  world : World
  requests : List Request
  statuses : List Str
  ret : Option Str
deriving Repr, DecidableEq

/-- `get_id(force)` (10kb.js lines 66–91). Returns the cached
`10kb_voter_id` if present, non-empty and `force` is false; otherwise
POSTs to `/id/` (outcome `idResp`), persisting and returning the minted
`voter_id` on `code == 200`, and surfacing a status message and
returning `null` on a network/parse error or a non-200 code. -/
def get_id (w : World) (force : Bool) (idResp : FetchOutcome IdResp) : GetIdResult :=
  if usableId w.store && !force then
    { world := w, requests := [], statuses := [], ret := w.store }
  else
    match idResp with
    | .error e =>
      { world := w, requests := [.idReq],
        statuses := [("Error getting poster id: ".toList ++ e)], ret := none }
    | .ok j =>
      if j.code = 200 then
        { world := { w with store := some j.voter_id }, requests := [.idReq],
          statuses := [], ret := some j.voter_id }
      else
        { world := w, requests := [.idReq],
          statuses := [("Unable to generate id: ".toList ++ j.status)], ret := none }

/-- The element mutation performed after a confirmed vote and by the
second hydration loop: set the CSS class and register one more click
listener (`addEventListener` appends; it never removes a listener). -/
def flipElem (cn : Str) (h : Handler) (e : Elem) : Elem :=
  { e with
    className := cn,
    listeners := e.listeners ++ [h] }

/-- The element mutation of the first hydration loop (lines 106–110):
class `unvoted`, one more listener invoking `vote_closure(s, 1)`, and
the arrow entity as `innerHTML`. -/
def initElem (s : Str) (e : Elem) : Elem :=
  { e with
    className := "unvoted".toList,
    listeners := e.listeners ++ [⟨true, s, 1⟩],
    innerHTML := "&#10145;".toList }

/-- Result of a `tryvote` call: final browser state, requests issued (in
order), status messages surfaced, and whether the function terminated
with an uncaught exception (`crashed`). -/
structure TryvoteResult where
  world : World
  requests : List Request
  statuses : List Str
  crashed : Bool
deriving Repr, DecidableEq

/-- `tryvote(site_id, vote)` (10kb.js lines 23–64), faithful to the
source: `get_id(false)` runs first; a `null` voter id crashes at
`voter_id.length` (TypeError); an empty-string id returns early; an
out-of-range vote surfaces `Invalid vote!` but does NOT return (no
`return` statement on line 33), so the `/vote/` request is still sent;
a fetch/parse failure surfaces a message and then crashes at
`json['code']` (json is undefined); on `code == 200` and `vote == 1`
the element `vote-<site_id>` gets class `upvoted` and an additional
click listener invoking `vote_closure(site_id, 0)`; on `vote == 0` it
gets class `unvoted` and an additional listener whose handler is
`(e) => closure` — it references the closure without calling it. -/
def tryvote (w : World) (site_id : Str) (vote : Int)
    (idResp : FetchOutcome IdResp) (voteResp : FetchOutcome VoteResp) : TryvoteResult :=
  let g := get_id w false idResp
  match g.ret with
  | none =>
    { world := g.world, requests := g.requests, statuses := g.statuses, crashed := true }
  | some v =>
    if v.isEmpty then
      { world := g.world, requests := g.requests, statuses := g.statuses, crashed := false }
    else
      let s1 := g.statuses ++ (if vote < 0 ∨ vote > 1 then [("Invalid vote!".toList)] else [])
      let reqs := g.requests ++ [.voteReq site_id v vote]
      match voteResp with
      | .error e =>
        { world := g.world, requests := reqs,
          statuses := s1 ++ [("Error casting vote: ".toList ++ e)], crashed := true }
      | .ok j =>
        if j.code = 200 then
          if vote = 1 then
            match getElementById g.world.doc (voteDash ++ site_id) with
            | none =>
              { world := g.world, requests := reqs, statuses := s1, crashed := true }
            | some _ =>
              { world := { g.world with doc := (setById g.world.doc (voteDash ++ site_id)
                  (flipElem "upvoted".toList ⟨true, site_id, 0⟩)) },
                requests := reqs, statuses := s1, crashed := false }
          else if vote = 0 then
            match getElementById g.world.doc (voteDash ++ site_id) with
            | none =>
              { world := g.world, requests := reqs, statuses := s1, crashed := true }
            | some _ =>
              { world := { g.world with doc := (setById g.world.doc (voteDash ++ site_id)
                  (flipElem "unvoted".toList ⟨false, site_id, 1⟩)) },
                requests := reqs, statuses := s1, crashed := false }
          else
            { world := g.world, requests := reqs, statuses := s1, crashed := false }
        else
          { world := g.world, requests := reqs,
            statuses := s1 ++ [("Unable to vote: ".toList ++ j.status)], crashed := false }

/-- JavaScript `s.split('-')` for the single-character separator. -/
def splitDash (l : Str) : List Str :=
  match l with
  | [] => [[]]
  | c :: cs =>
    let r := splitDash cs
    if c = '-' then [] :: r
    else (c :: r.headD []) :: r.tail

/-- JavaScript `List.isPrefixOf`-based substring test: does `p` occur
as a contiguous substring of the second argument? -/
def containsSub (p : Str) : Str → Bool
  | [] => p.isPrefixOf []
  | c :: cs => p.isPrefixOf (c :: cs) || containsSub p cs

/-- The discovery test on line 98 (regex match on the literal text
vote followed by a hyphen): the id contains `vote-` as a substring. -/
def matchesVote (i : Str) : Bool := containsSub voteDash i

/-- `elem.id.split('-')[1]`: the extracted site id (10kb.js line 99). -/
def extract (i : Str) : Str := (splitDash i).getD 1 []

/-- The discovery scan of `populate_votes` (lines 96–103): for each div,
in document order, whose id matches the vote-prefix regex, push
`id.split('-')[1]`. No deduplication is performed. -/
def discover (d : Doc) : List Str :=
  (d.filter (fun e => matchesVote e.id)).map (fun e => extract e.id)

/-- First loop of `populate_votes` (lines 105–111): for each discovered
id `s`, look up `vote-<s>`, set class `unvoted`, register a click
listener invoking `vote_closure(s, 1)` and set the arrow `innerHTML`.
A failed lookup crashes (TypeError on null, outside any try), keeping
the updates already made; the second component reports the crash. -/
def hydrateDefault (d : Doc) (ids : List Str) : Doc × Bool :=
  match ids with
  | [] => (d, false)
  | s :: rest =>
    match getElementById d (voteDash ++ s) with
    | none => (d, true)
    | some _ =>
      hydrateDefault (setById d (voteDash ++ s) (initElem s)) rest

/-- Second loop of `populate_votes` (lines 126–131): for each site id in
the server's `site_ids`, set class `upvoted` and register a listener
invoking `vote_closure(s, 0)`. A failed lookup throws inside the `try`,
so processing stops and the exception is caught. -/
def applyVotes (d : Doc) (sites : List Str) : Doc :=
  match sites with
  | [] => d
  | s :: rest =>
    match getElementById d (voteDash ++ s) with
    | none => d
    | some _ =>
      applyVotes (setById d (voteDash ++ s) (flipElem "upvoted".toList ⟨true, s, 0⟩)) rest

/-- Result of a `populate_votes` call. `populate_votes` surfaces no
`alert` messages (its failure path only logs to the console), so only
the browser state, requests and crash flag are recorded. -/
structure PopulateResult where
  world : World
  requests : List Request
  crashed : Bool
deriving Repr, DecidableEq

/-- `populate_votes()` (10kb.js lines 93–136): discovery, the
default-unvoted pass, then one `POST /votes/` carrying the discovered
ids and the raw `localStorage` voter id; on outcome `.ok sites` the
returned ids are marked upvoted; a fetch/parse failure is caught and
merely logged. The identity store is never written. -/
def populate_votes (w : World) (votesResp : FetchOutcome (List Str)) : PopulateResult :=
  let ids := discover w.doc
  let h := hydrateDefault w.doc ids
  if h.2 then
    { world := { w with doc := h.1 }, requests := [], crashed := true }
  else
    let req := Request.votesReq ids w.store
    match votesResp with
    | .error _ =>
      { world := { w with doc := h.1 }, requests := [req], crashed := false }
    | .ok sites =>
      { world := { w with doc := applyVotes h.1 sites }, requests := [req], crashed := false }

/-- A page as initially rendered: every div is a vote target whose id is
`vote-` followed by a hyphen-free site id, and no listeners are attached
yet (the script registers the first ones itself on DOMContentLoaded). -/
def wfDoc (d : Doc) : Prop :=
  ∀ e ∈ d, (∃ s, e.id = voteDash ++ s ∧ '-' ∉ s) ∧ e.listeners = []

/-- The per-site state established by the first hydration loop: the
element found by looking up `vote-<s>` shows class `unvoted` and every
one of its (at least one) listeners invokes `vote_closure(s, 1)`. -/
def elemOK (d : Doc) (s : Str) : Prop :=
  ∃ e, getElementById d (voteDash ++ s) = some e ∧
    e.className = "unvoted".toList ∧ e.listeners ≠ [] ∧
    ∀ h ∈ e.listeners, h = ⟨true, s, 1⟩

/-- A failed `/vote/` round trip as the spec classifies it: a network
exception or malformed body (`.error`), or a response whose `code` is
not 200. -/
def voteFails : FetchOutcome VoteResp → Bool
  | .error _ => true
  | .ok j => j.code != 200

/-- A failed `/id/` round trip: a network exception or malformed body,
or a response whose `code` is not 200. -/
def idFails : FetchOutcome IdResp → Bool
  | .error _ => true
  | .ok j => j.code != 200

/-- A one-site demo page: a single vote target for site `a1`, no
listeners attached yet. -/
def demoDoc : Doc :=
  [{ id := "vote-a1".toList, className := [], listeners := [], innerHTML := [] }]

/-- Demo browser state: the demo page with a cached voter id `v1`. -/
def demoW0 : World := { doc := demoDoc, store := some "v1".toList }

/-- The demo state after a successful hydration in which the server
reports no prior upvotes. -/
def demoHydrated : World := (populate_votes demoW0 (.ok [])).world

/-- The demo state after the user clicks `a1`'s control and the server
confirms `cast(a1, 1)` with code 200. -/
def demoUp : TryvoteResult :=
  tryvote demoHydrated ("a1".toList) 1 (.error []) (.ok ⟨200, []⟩)

/-- The demo state after the server then confirms `cast(a1, 0)` with
code 200. -/
def demoDown : TryvoteResult :=
  tryvote demoUp.world ("a1".toList) 0 (.error []) (.ok ⟨200, []⟩)

/-- A page containing two vote-capable elements for the same site `a1`,
as rendered markup could: used to probe deduplication. -/
def dupDoc : Doc :=
  [{ id := "vote-a1".toList, className := [], listeners := [], innerHTML := [] },
   { id := "vote-a1".toList, className := [], listeners := [], innerHTML := [] }]

/-- Browser state for the duplicate-element page, first-ever visit
(no stored identity). -/
def dupW : World := { doc := dupDoc, store := none }

/-! ## String lemmas: the discovery scan's split and regex match -/

theorem splitDash_ne_nil (l : Str) : splitDash l ≠ [] := by
  cases l with
  | nil => simp [splitDash]
  | cons c cs =>
    simp only [splitDash]
    split <;> simp

theorem splitDash_voteDash_append (s : Str) :
    splitDash (voteDash ++ s) = (['v', 'o', 't', 'e'] : Str) :: splitDash s := by
  have h : ∀ t : Str, (splitDash t).headD [] = [] → splitDash t = [] :: (splitDash t).tail := by
    intro t ht
    cases hsD : splitDash t with
    | nil => exact absurd hsD (splitDash_ne_nil t)
    | cons a r => simp [hsD] at ht; simp [ht]
  simp [voteDash, splitDash]

theorem splitDash_headD (s : Str) :
    (splitDash s).headD [] = s.takeWhile (fun c => c ≠ '-') := by
  induction s with
  | nil => rfl
  | cons c cs ih =>
    by_cases hc : c = '-'
    · subst hc
      rw [List.takeWhile_cons_of_neg (by simp)]
      simp [splitDash]
    · rw [List.takeWhile_cons_of_pos (by simp [hc]),
        show splitDash (c :: cs) = (c :: (splitDash cs).headD []) :: (splitDash cs).tail from by
          simp [splitDash, hc]]
      simpa using ih

theorem splitDash_no_dash (s : Str) (h : '-' ∉ s) : splitDash s = [s] := by
  induction s with
  | nil => rfl
  | cons c cs ih =>
    simp only [List.mem_cons, not_or] at h
    have hc : ¬c = '-' := fun hcc => h.1 hcc.symm
    simp [splitDash, hc, ih h.2]

theorem takeWhile_ne_dash_eq_self (s : Str) (h : '-' ∉ s) :
    s.takeWhile (fun c => c ≠ '-') = s := by
  refine List.takeWhile_eq_self_iff.mpr ?_
  intro x hx
  simp only [decide_eq_true_eq]
  intro hxe
  exact h (hxe ▸ hx)

theorem takeWhile_ne_dash_ne_self (s : Str) (h : '-' ∈ s) :
    s.takeWhile (fun c => c ≠ '-') ≠ s := by
  intro hcontra
  have := List.takeWhile_eq_self_iff.mp hcontra '-' h
  simp at this

theorem extract_voteDash_append (s : Str) :
    extract (voteDash ++ s) = s.takeWhile (fun c => c ≠ '-') := by
  rw [extract, splitDash_voteDash_append]
  have h1 : ((['v', 'o', 't', 'e'] : Str) :: splitDash s).getD 1 [] = (splitDash s).getD 0 [] :=
    List.getD_cons_succ
  rw [h1, ← splitDash_headD s]
  cases hsD : splitDash s with
  | nil => exact absurd hsD (splitDash_ne_nil s)
  | cons a r => simp

/-- C10: discovery extracts the site id of a vote-capable element whose
id is `vote-` followed by the rendered `site_id` as the substring
between the first and second hyphen; the extracted id equals the
rendered `site_id` exactly when the `site_id` contains no hyphen, and a
`site_id` containing a hyphen is silently truncated at its first
hyphen. -/
theorem extract_site_id_truncation (s : Str) :
    (extract (voteDash ++ s) = s ↔ '-' ∉ s) ∧
    ('-' ∈ s → extract (voteDash ++ s) = s.takeWhile (fun c => c ≠ '-')) := by
  refine ⟨⟨fun heq hmem => ?_, fun hno => ?_⟩, fun _ => extract_voteDash_append s⟩
  · rw [extract_voteDash_append] at heq
    exact takeWhile_ne_dash_ne_self s hmem heq
  · rw [extract_voteDash_append]
    exact takeWhile_ne_dash_eq_self s hno

/-- Witness for C10 at the concrete inputs `a1` (no hyphen: extraction
is the identity) and `a-b` (hyphen: extraction truncates to `a`). -/
theorem extract_site_id_truncation_witness :
    extract (voteDash ++ ('a' :: '1' :: [])) = ('a' :: '1' :: []) ∧
    ('-' ∈ ('a' :: '-' :: 'b' :: []) ∧
      extract (voteDash ++ ('a' :: '-' :: 'b' :: [])) =
        ('a' :: '-' :: 'b' :: []).takeWhile (fun c => c ≠ '-')) :=
  ⟨(extract_site_id_truncation ('a' :: '1' :: [])).1.mpr (by decide),
   ⟨by decide, (extract_site_id_truncation ('a' :: '-' :: 'b' :: [])).2 (by decide)⟩⟩

/-! ## Lookup and mutation lemmas -/

theorem isPrefixOf_append (l t : Str) : l.isPrefixOf (l ++ t) = true := by
  induction l with
  | nil =>
    rw [List.nil_append]
    cases t <;> rfl
  | cons c cs ih => simp [List.isPrefixOf, ih]

theorem matchesVote_voteDash_append (s : Str) : matchesVote (voteDash ++ s) = true := by
  have h : voteDash ++ s = 'v' :: ((['o', 't', 'e', '-'] : Str) ++ s) := rfl
  rw [matchesVote, h, containsSub, ← h, isPrefixOf_append]
  simp

theorem initElem_id (s : Str) (e : Elem) : (initElem s e).id = e.id := rfl

theorem flipElem_id (cn : Str) (h : Handler) (e : Elem) : (flipElem cn h e).id = e.id := rfl

theorem getElementById_setById_eq (d : Doc) (i : Str) (f : Elem → Elem)
    (hf : ∀ e, (f e).id = e.id) :
    getElementById (setById d i f) i = (getElementById d i).map f := by
  induction d with
  | nil => rfl
  | cons e es ih =>
    simp only [getElementById] at ih
    by_cases h : e.id = i
    · have hb : (e.id == i) = true := beq_iff_eq.mpr h
      have hb' : ((f e).id == i) = true := by rw [hf]; exact hb
      simp [setById, getElementById, List.find?_cons, hb, hb']
    · have hb : (e.id == i) = false := beq_eq_false_iff_ne.mpr h
      simp [setById, getElementById, List.find?_cons, hb, ih]

theorem getElementById_setById_ne (d : Doc) (i j : Str) (f : Elem → Elem)
    (hf : ∀ e, (f e).id = e.id) (hij : j ≠ i) :
    getElementById (setById d i f) j = getElementById d j := by
  induction d with
  | nil => rfl
  | cons e es ih =>
    by_cases h : e.id = i
    · have hj : ((f e).id == j) = false := by
        rw [hf, h]
        exact beq_eq_false_iff_ne.mpr (fun hc => hij hc.symm)
      have hj' : (e.id == j) = false := by
        rw [h]
        exact beq_eq_false_iff_ne.mpr (fun hc => hij hc.symm)
      have hb : (e.id == i) = true := beq_iff_eq.mpr h
      simp [setById, getElementById, List.find?_cons, hb, hj, hj']
    · have hb : (e.id == i) = false := beq_eq_false_iff_ne.mpr h
      simp only [getElementById] at ih
      cases hj : (e.id == j) with
      | true => simp [setById, getElementById, List.find?_cons, hb, hj]
      | false => simp [setById, getElementById, List.find?_cons, hb, hj, ih]

/-! ## Hydration invariants -/

theorem find?_exists_of_mem (d : Doc) (e : Elem) (i : Str) (he : e ∈ d) (hid : e.id = i) :
    ∃ e', getElementById d i = some e' ∧ e' ∈ d := by
  induction d with
  | nil => exact absurd he (List.not_mem_nil e)
  | cons a as ih =>
    cases ha : (a.id == i) with
    | true =>
      exact ⟨a, by simp [getElementById, List.find?_cons, ha], List.mem_cons_self a as⟩
    | false =>
      rcases List.mem_cons.mp he with rfl | hmem
      · rw [beq_iff_eq.symm] at hid
        rw [hid] at ha
        cases ha
      · obtain ⟨e', h1, h2⟩ := ih hmem
        exact ⟨e', by simpa [getElementById, List.find?_cons, ha] using h1, List.mem_cons_of_mem a h2⟩

theorem discover_mem (d : Doc) (hwf : wfDoc d) (s : Str) (hs : s ∈ discover d) :
    ∃ e ∈ d, e.id = voteDash ++ s := by
  rw [discover] at hs
  obtain ⟨e, hef, hex⟩ := List.mem_map.mp hs
  have hed : e ∈ d := List.mem_of_mem_filter hef
  obtain ⟨⟨se, hid, hnd⟩, _⟩ := hwf e hed
  rw [hid, extract_voteDash_append, takeWhile_ne_dash_eq_self se hnd] at hex
  exact ⟨e, hed, by rw [hid, hex]⟩

theorem hydrate_pre (d : Doc) (hwf : wfDoc d) :
    ∀ s ∈ discover d, ∃ e, getElementById d (voteDash ++ s) = some e ∧
      ∀ h ∈ e.listeners, h = ⟨true, s, 1⟩ := by
  intro s hs
  obtain ⟨e, hed, hid⟩ := discover_mem d hwf s hs
  obtain ⟨e', h1, h2⟩ := find?_exists_of_mem d e (voteDash ++ s) hed hid
  refine ⟨e', h1, ?_⟩
  rw [(hwf e' h2).2]
  intro h hh
  exact absurd hh (List.not_mem_nil h)

theorem elemOK_hydrate_stable (ids : List Str) (d : Doc) (s : Str) (h : elemOK d s) :
    elemOK (hydrateDefault d ids).1 s := by
  induction ids generalizing d with
  | nil => exact h
  | cons s' rest ih =>
    cases hfind : getElementById d (voteDash ++ s') with
    | none => simpa [hydrateDefault, hfind] using h
    | some e' =>
      rw [hydrateDefault, hfind]
      apply ih
      by_cases hss : voteDash ++ s' = voteDash ++ s
      · have hs : s' = s := List.append_cancel_left hss
        subst hs
        obtain ⟨e, hget, hcn, hne, hall⟩ := h
        refine ⟨initElem s' e, ?_, rfl, by simp [initElem], ?_⟩
        · rw [getElementById_setById_eq d (voteDash ++ s') (initElem s') (initElem_id s'), hget]
          rfl
        · intro h hh
          simp only [initElem, List.mem_append, List.mem_singleton] at hh
          rcases hh with hh | hh
          · exact hall h hh
          · exact hh
      · have hne : voteDash ++ s ≠ voteDash ++ s' := fun hc => hss hc.symm
        obtain ⟨e, hget, props⟩ := h
        exact ⟨e, by rw [getElementById_setById_ne d (voteDash ++ s') (voteDash ++ s)
          (initElem s') (initElem_id s') hne]; exact hget, props⟩

theorem hydrate_main (ids : List Str) (d : Doc)
    (hpre : ∀ s ∈ ids, ∃ e, getElementById d (voteDash ++ s) = some e ∧
      ∀ h ∈ e.listeners, h = ⟨true, s, 1⟩) :
    (hydrateDefault d ids).2 = false ∧ ∀ s ∈ ids, elemOK (hydrateDefault d ids).1 s := by
  induction ids generalizing d with
  | nil => simp [hydrateDefault]
  | cons s rest ih =>
    obtain ⟨e, hfind, hls⟩ := hpre s (List.mem_cons_self s rest)
    rw [hydrateDefault, hfind]
    have hok : elemOK (setById d (voteDash ++ s) (initElem s)) s := by
      refine ⟨initElem s e, ?_, rfl, by simp [initElem], ?_⟩
      · rw [getElementById_setById_eq d (voteDash ++ s) (initElem s) (initElem_id s), hfind]
        rfl
      · intro h hh
        simp only [initElem, List.mem_append, List.mem_singleton] at hh
        rcases hh with hh | hh
        · exact hls h hh
        · exact hh
    have hpre' : ∀ s' ∈ rest, ∃ e', getElementById (setById d (voteDash ++ s) (initElem s))
        (voteDash ++ s') = some e' ∧ ∀ h ∈ e'.listeners, h = ⟨true, s', 1⟩ := by
      intro s' hs'
      by_cases hss : voteDash ++ s' = voteDash ++ s
      · have heq : s' = s := List.append_cancel_left hss
        subst heq
        refine ⟨initElem s' e, ?_, ?_⟩
        · rw [getElementById_setById_eq d (voteDash ++ s') (initElem s') (initElem_id s'), hfind]
          rfl
        · intro h hh
          simp only [initElem, List.mem_append, List.mem_singleton] at hh
          rcases hh with hh | hh
          · exact hls h hh
          · exact hh
      · obtain ⟨e', h1, h2⟩ := hpre s' (List.mem_cons_of_mem s hs')
        exact ⟨e', by rw [getElementById_setById_ne d (voteDash ++ s) (voteDash ++ s')
          (initElem s) (initElem_id s) hss]; exact h1, h2⟩
    obtain ⟨hcrash, hrest⟩ := ih (setById d (voteDash ++ s) (initElem s)) hpre'
    refine ⟨hcrash, ?_⟩
    intro s' hs'
    rcases List.mem_cons.mp hs' with rfl | hmem
    · exact elemOK_hydrate_stable rest (setById d (voteDash ++ s') (initElem s')) s' hok
    · exact hrest s' hmem

/-! ## populate_votes effect lemmas -/

theorem populate_store_eq (w : World) (resp : FetchOutcome (List Str)) :
    (populate_votes w resp).world.store = w.store := by
  unfold populate_votes
  by_cases hc : (hydrateDefault w.doc (discover w.doc)).2
  · simp [hc]
  · cases resp <;> simp [hc]

theorem populate_no_idReq (w : World) (resp : FetchOutcome (List Str)) :
    Request.idReq ∉ (populate_votes w resp).requests := by
  unfold populate_votes
  by_cases hc : (hydrateDefault w.doc (discover w.doc)).2
  · simp [hc]
  · cases resp <;> simp [hc]

theorem populate_requests_eq (w : World) (resp : FetchOutcome (List Str))
    (h2 : (hydrateDefault w.doc (discover w.doc)).2 = false) :
    (populate_votes w resp).requests = [.votesReq (discover w.doc) w.store] ∧
    (populate_votes w resp).crashed = false := by
  unfold populate_votes
  cases resp <;> simp [h2]

theorem populate_error_doc (w : World) (emsg : Str)
    (h2 : (hydrateDefault w.doc (discover w.doc)).2 = false) :
    (populate_votes w (.error emsg)).world.doc = (hydrateDefault w.doc (discover w.doc)).1 := by
  unfold populate_votes
  simp [h2]

theorem clickRequests_all (e : Elem) (s : Str) (hne : e.listeners ≠ [])
    (hall : ∀ h ∈ e.listeners, h = ⟨true, s, 1⟩) :
    clickRequests e ≠ [] ∧ ∀ q ∈ clickRequests e, q = (s, 1) := by
  constructor
  · cases hl : e.listeners with
    | nil => exact absurd hl hne
    | cons h t =>
      have hh : h = ⟨true, s, 1⟩ := hall h (by rw [hl]; exact List.mem_cons_self h t)
      rw [clickRequests, hl, List.filterMap_cons_some (by rw [hh]; rfl)]
      simp
  · intro q hq
    obtain ⟨h, hh, hf⟩ := List.mem_filterMap.mp hq
    rw [hall h hh] at hf
    simpa [vote_closure] using hf.symm

/-- C7: if the bulk `/votes/` fetch fails (network error or malformed
body), hydration leaves every discovered site in the default `unvoted`
displayed state with its control bound so that every click request it
triggers is `tryvote(s, 1)`, and `populate_votes` does not crash, so
voting stays attemptable. -/
theorem bulk_fetch_failure_degrades (w : World) (emsg : Str) (hwf : wfDoc w.doc) :
    (populate_votes w (.error emsg)).crashed = false ∧
    ∀ s ∈ discover w.doc, ∃ e,
      getElementById (populate_votes w (.error emsg)).world.doc (voteDash ++ s) = some e ∧
      e.className = "unvoted".toList ∧ clickRequests e ≠ [] ∧
      ∀ q ∈ clickRequests e, q = (s, 1) := by
  have hpre := hydrate_pre w.doc hwf
  obtain ⟨h2, hok⟩ := hydrate_main (discover w.doc) w.doc hpre
  obtain ⟨hreq, hcr⟩ := populate_requests_eq w (.error emsg) h2
  refine ⟨hcr, ?_⟩
  intro s hs
  rw [populate_error_doc w emsg h2]
  obtain ⟨e, hget, hcn, hne, hall⟩ := hok s hs
  obtain ⟨hne', hall'⟩ := clickRequests_all e s hne hall
  exact ⟨e, hget, hcn, hne', hall'⟩

/-- Witness for C7: the demo page, bulk fetch failing with a network
error. -/
theorem bulk_fetch_failure_degrades_witness :
    wfDoc demoW0.doc ∧ (populate_votes demoW0 (.error ("net".toList))).crashed = false :=
  ⟨fun e he => by
      simp only [demoW0, demoDoc, List.mem_singleton] at he
      subst he
      exact ⟨⟨"a1".toList, by decide, by decide⟩, rfl⟩,
   (bulk_fetch_failure_degrades demoW0 ("net".toList) (fun e he => by
      simp only [demoW0, demoDoc, List.mem_singleton] at he
      subst he
      exact ⟨⟨"a1".toList, by decide, by decide⟩, rfl⟩)).1⟩

/-- C8 counterexample: a page with two vote-capable elements for the
same site `a1` sends the `/votes/` request with `a1` listed twice —
the discovered ids are not deduplicated before the request. -/
theorem discovery_no_dedup_counterexample :
    (populate_votes dupW (.ok [])).requests =
      [.votesReq [("a1".toList), ("a1".toList)] none] ∧
    1 < ([("a1".toList), ("a1".toList)] : List Str).count ("a1".toList) := by
  constructor
  · rfl
  · decide

/-- C8 amended: the `site_ids` list sent to `/votes/` is exactly the
list of ids extracted from the matching elements in document order,
duplicates retained — no deduplication is performed. -/
theorem discovery_requests_raw_list (w : World) (resp : FetchOutcome (List Str))
    (hwf : wfDoc w.doc) :
    (populate_votes w resp).requests = [.votesReq (discover w.doc) w.store] := by
  obtain ⟨h2, _⟩ := hydrate_main (discover w.doc) w.doc (hydrate_pre w.doc hwf)
  exact (populate_requests_eq w resp h2).1

/-- Witness for the amended C8: on the duplicate-element page the sent
list is the raw discovery list `[a1, a1]`. -/
theorem discovery_requests_raw_list_witness :
    wfDoc dupW.doc ∧
    (populate_votes dupW (.ok [])).requests = [.votesReq (discover dupW.doc) dupW.store] :=
  ⟨fun e he => by
      simp only [dupW, dupDoc, List.mem_cons, List.mem_singleton] at he
      rcases he with rfl | rfl | h
      · exact ⟨⟨"a1".toList, by decide, by decide⟩, rfl⟩
      · exact ⟨⟨"a1".toList, by decide, by decide⟩, rfl⟩
      · exact absurd h (List.not_mem_nil e)
    ,
   discovery_requests_raw_list dupW (.ok []) (fun e he => by
      simp only [dupW, dupDoc, List.mem_cons, List.mem_singleton] at he
      rcases he with rfl | rfl | h
      · exact ⟨⟨"a1".toList, by decide, by decide⟩, rfl⟩
      · exact ⟨⟨"a1".toList, by decide, by decide⟩, rfl⟩
      · exact absurd h (List.not_mem_nil e))⟩

/-- C9: hydration never modifies the identity store — after
`populate_votes` the store holds exactly what it held before, no `/id/`
request is ever issued, and (on a well-formed page) the bulk request is
still sent carrying whatever the store held, absent included. -/
theorem hydration_identity_frame (w : World) (resp : FetchOutcome (List Str))
    (hwf : wfDoc w.doc) :
    (populate_votes w resp).world.store = w.store ∧
    Request.idReq ∉ (populate_votes w resp).requests ∧
    (populate_votes w resp).requests = [.votesReq (discover w.doc) w.store] := by
  obtain ⟨h2, _⟩ := hydrate_main (discover w.doc) w.doc (hydrate_pre w.doc hwf)
  exact ⟨populate_store_eq w resp, populate_no_idReq w resp,
    (populate_requests_eq w resp h2).1⟩

/-- Witness for C9: a first-ever visit (store absent) on the demo page;
the bulk request is sent with the absent identity and the store stays
absent. -/
theorem hydration_identity_frame_witness :
    wfDoc ({ doc := demoDoc, store := none } : World).doc ∧
    ((populate_votes { doc := demoDoc, store := none } (.ok [])).world.store = none ∧
      (populate_votes { doc := demoDoc, store := none } (.ok [])).requests =
        [.votesReq [("a1".toList)] none]) := by
  have hwf : wfDoc ({ doc := demoDoc, store := none } : World).doc := fun e he => by
    simp only [demoDoc, List.mem_singleton] at he
    subst he
    exact ⟨⟨"a1".toList, by decide, by decide⟩, rfl⟩
  have h := hydration_identity_frame { doc := demoDoc, store := none } (.ok []) hwf
  exact ⟨hwf, h.1, by rw [h.2.2]; rfl⟩

/-! ## tryvote lemmas -/

theorem get_id_cached (w : World) (v : Str) (idR : FetchOutcome IdResp)
    (hstore : w.store = some v) (hv : v.isEmpty = false) :
    get_id w false idR =
      { world := w, requests := [], statuses := [], ret := some v } := by
  simp [get_id, usableId, hstore, hv]

theorem tryvote_cached_requests (w : World) (site v : Str) (vote : Int)
    (idR : FetchOutcome IdResp) (vR : FetchOutcome VoteResp)
    (hstore : w.store = some v) (hv : v ≠ []) :
    (tryvote w site vote idR vR).requests = [.voteReq site v vote] ∧
    (tryvote w site vote idR vR).world.store = some v := by
  have hemp : v.isEmpty = false := by
    cases v with
    | nil => exact absurd rfl hv
    | cons a t => rfl
  have hg := get_id_cached w v idR hstore hemp
  cases vR with
  | error e => simp [tryvote, hg, hemp, hstore]
  | ok j =>
    by_cases hcode : j.code = 200
    · by_cases h1 : vote = 1
      · subst h1
        cases hfind : getElementById w.doc (voteDash ++ site) with
        | none => simp [tryvote, hg, hemp, hcode, hfind, hstore]
        | some e => simp [tryvote, hg, hemp, hcode, hfind, hstore]
      · by_cases h0 : vote = 0
        · subst h0
          cases hfind : getElementById w.doc (voteDash ++ site) with
          | none => simp [tryvote, hg, hemp, hcode, h1, hfind, hstore]
          | some e => simp [tryvote, hg, hemp, hcode, h1, hfind, hstore]
        · simp [tryvote, hg, hemp, hcode, h1, h0, hstore]
    · simp [tryvote, hg, hemp, hcode, hstore]

theorem tryvote_fresh_requests (w : World) (site v st : Str) (vote : Int)
    (vR : FetchOutcome VoteResp) (hstore : w.store = none) (hv : v ≠ []) :
    (tryvote w site vote (.ok ⟨200, v, st⟩) vR).requests = [.idReq, .voteReq site v vote] ∧
    (tryvote w site vote (.ok ⟨200, v, st⟩) vR).world.store = some v := by
  have hemp : v.isEmpty = false := by
    cases v with
    | nil => exact absurd rfl hv
    | cons a t => rfl
  have hg : get_id w false (.ok ⟨200, v, st⟩) =
      { world := { w with store := some v }, requests := [.idReq],
        statuses := [], ret := some v } := by
    simp [get_id, usableId, hstore]
  cases vR with
  | error e => simp [tryvote, hg, hemp]
  | ok j =>
    by_cases hcode : j.code = 200
    · by_cases h1 : vote = 1
      · subst h1
        cases hfind : getElementById w.doc (voteDash ++ site) with
        | none => simp [tryvote, hg, hemp, hcode, hfind]
        | some e => simp [tryvote, hg, hemp, hcode, hfind]
      · by_cases h0 : vote = 0
        · subst h0
          cases hfind : getElementById w.doc (voteDash ++ site) with
          | none => simp [tryvote, hg, hemp, hcode, h1, hfind]
          | some e => simp [tryvote, hg, hemp, hcode, h1, hfind]
        · simp [tryvote, hg, hemp, hcode, h1, h0]
    · simp [tryvote, hg, hemp, hcode]

theorem get_id_world_doc (w : World) (force : Bool) (idR : FetchOutcome IdResp) :
    (get_id w force idR).world.doc = w.doc := by
  unfold get_id
  split
  · rfl
  · cases idR with
    | error e => rfl
    | ok j => by_cases hc : j.code = 200 <;> simp [hc]

/-- C4: whenever a cast's `/vote/` round trip fails — network
exception, malformed body, or a response code other than 200 — the
document (displayed state and control bindings) is unchanged from
before the call, a status message is surfaced, and the single `/vote/`
attempt is the only one made (no retry); this holds for any identity
`get_id` produced, cached or freshly issued. -/
theorem cast_failure_leaves_state (w : World) (site v : Str) (vote : Int)
    (idR : FetchOutcome IdResp) (vR : FetchOutcome VoteResp)
    (hid : (get_id w false idR).ret = some v) (hv : v ≠ []) (hfail : voteFails vR = true) :
    (tryvote w site vote idR vR).world.doc = w.doc ∧
    (tryvote w site vote idR vR).statuses ≠ [] ∧
    (tryvote w site vote idR vR).requests =
      (get_id w false idR).requests ++ [.voteReq site v vote] := by
  have hemp : v.isEmpty = false := by
    cases v with
    | nil => exact absurd rfl hv
    | cons a t => rfl
  have hdoc := get_id_world_doc w false idR
  cases vR with
  | error e => simp [tryvote, hid, hemp, hdoc]
  | ok j =>
    have hcode : ¬(j.code = 200) := by simpa [voteFails] using hfail
    simp [tryvote, hid, hemp, hcode, hdoc]

/-- Witness for C4: the demo state (cached id `v1`), server rejecting
with code 500. -/
theorem cast_failure_leaves_state_witness :
    (get_id demoW0 false (.error [])).ret = some ("v1".toList) ∧
    voteFails (.ok ⟨500, "busy".toList⟩) = true ∧
    (tryvote demoW0 ("a1".toList) 1 (.error []) (.ok ⟨500, "busy".toList⟩)).world.doc =
      demoW0.doc ∧
    (tryvote demoW0 ("a1".toList) 1 (.error []) (.ok ⟨500, "busy".toList⟩)).requests =
      (get_id demoW0 false (.error [])).requests ++ [.voteReq ("a1".toList) ("v1".toList) 1] := by
  have h := cast_failure_leaves_state demoW0 ("a1".toList) ("v1".toList) 1 (.error [])
    (.ok ⟨500, "busy".toList⟩) rfl (by decide) (by decide)
  exact ⟨rfl, by decide, h.1, h.2.2⟩

/-- C5: when no usable identity is stored and the `/id/` round trip
fails (network error or non-200 code), `get_id` returns null (the
absent value), the caller never issues the `/vote/` request, and a
status notice has been surfaced. -/
theorem identity_failure_aborts (w : World) (site : Str) (vote : Int)
    (idR : FetchOutcome IdResp) (vR : FetchOutcome VoteResp)
    (hstore : usableId w.store = false) (hfail : idFails idR = true) :
    (get_id w false idR).ret = none ∧
    (tryvote w site vote idR vR).requests = [.idReq] ∧
    (tryvote w site vote idR vR).statuses ≠ [] := by
  have hg : (get_id w false idR).ret = none ∧
      (get_id w false idR).requests = [.idReq] ∧
      (get_id w false idR).statuses ≠ [] := by
    cases idR with
    | error e => simp [get_id, hstore]
    | ok j =>
      have hcode : ¬(j.code = 200) := by simpa [idFails] using hfail
      simp [get_id, hstore, hcode]
  have ht : tryvote w site vote idR vR =
      { world := (get_id w false idR).world, requests := (get_id w false idR).requests,
        statuses := (get_id w false idR).statuses, crashed := true } := by
    rw [tryvote]
    simp [hg.1]
  exact ⟨hg.1, by rw [ht]; exact hg.2.1, by rw [ht]; exact hg.2.2⟩

/-- Witness for C5: a first-ever visit with the `/id/` fetch failing. -/
theorem identity_failure_aborts_witness :
    usableId ({ doc := demoDoc, store := none } : World).store = false ∧
    idFails (.error ("down".toList)) = true ∧
    (get_id { doc := demoDoc, store := none } false (.error ("down".toList))).ret = none ∧
    (tryvote { doc := demoDoc, store := none } ("a1".toList) 1 (.error ("down".toList))
      (.ok ⟨200, []⟩)).requests = [.idReq] := by
  have h := identity_failure_aborts { doc := demoDoc, store := none } ("a1".toList) 1
    (.error ("down".toList)) (.ok ⟨200, []⟩) rfl rfl
  exact ⟨rfl, rfl, h.1, h.2.1⟩

/-- C6: a cast with no stored identity triggers exactly one `/id/`
request, placed before the single `/vote/` request, and persists the
minted id; a subsequent cast in the same session — any site, any
responses — issues no further `/id/` request and reuses the cached
identity. -/
theorem lazy_identity (w : World) (site1 site2 : Str) (vote1 vote2 : Int) (v st : Str)
    (vR1 : FetchOutcome VoteResp) (idR2 : FetchOutcome IdResp) (vR2 : FetchOutcome VoteResp)
    (hstore : w.store = none) (hv : v ≠ []) :
    (tryvote w site1 vote1 (.ok ⟨200, v, st⟩) vR1).requests =
      [.idReq, .voteReq site1 v vote1] ∧
    (tryvote w site1 vote1 (.ok ⟨200, v, st⟩) vR1).world.store = some v ∧
    (tryvote (tryvote w site1 vote1 (.ok ⟨200, v, st⟩) vR1).world site2 vote2 idR2
      vR2).requests = [.voteReq site2 v vote2] := by
  obtain ⟨h1, h2⟩ := tryvote_fresh_requests w site1 v st vote1 vR1 hstore hv
  exact ⟨h1, h2,
    (tryvote_cached_requests _ site2 v vote2 idR2 vR2 h2 hv).1⟩

/-- Witness for C6: first-ever visit, vote on `a1` then on `b2`. -/
theorem lazy_identity_witness :
    ({ doc := demoDoc, store := none } : World).store = none ∧
    (tryvote { doc := demoDoc, store := none } ("a1".toList) 1
      (.ok ⟨200, "v9".toList, []⟩) (.ok ⟨200, []⟩)).requests =
      [.idReq, .voteReq ("a1".toList) ("v9".toList) 1] ∧
    (tryvote (tryvote { doc := demoDoc, store := none } ("a1".toList) 1
        (.ok ⟨200, "v9".toList, []⟩) (.ok ⟨200, []⟩)).world ("b2".toList) 1
      (.error []) (.ok ⟨200, []⟩)).requests =
      [.voteReq ("b2".toList) ("v9".toList) 1] := by
  have h := lazy_identity { doc := demoDoc, store := none } ("a1".toList) ("b2".toList) 1 1
    ("v9".toList) [] (.ok ⟨200, []⟩) (.error []) (.ok ⟨200, []⟩) rfl (by decide)
  exact ⟨rfl, h.1, h.2.2⟩

/-- C1: evaluation at the failing input. After hydration, a confirmed
`cast(a1, 1)` and a confirmed `cast(a1, 0)`, the displayed state is
back to `unvoted` (that half of the claim holds), but the control is
not bound to request vote value 1 again: the listener added by the
confirmed `cast(a1, 0)` never invokes its closure (the handler is
`(e) => closure`, without the call), and the stale listeners remain, so
the next activation issues `tryvote(a1, 1)` and `tryvote(a1, 0)`. -/
theorem toggle_rebind_bug_eval :
    (getElementById demoDown.world.doc ("vote-a1".toList)).map
      (fun e => (e.className, clickRequests e, e.listeners)) =
    some (("unvoted".toList),
      [(("a1".toList), (1 : Int)), (("a1".toList), (0 : Int))],
      [⟨true, "a1".toList, 1⟩, ⟨true, "a1".toList, 0⟩, ⟨false, "a1".toList, 1⟩]) := by
  rfl

/-- C2: evaluation at the failing input. The activation that triggered
the confirmed `cast(a1, 1)` came from a control whose click requests
were `[(a1, 1)]`; after the confirmed flip the control's click requests
are `[(a1, 1), (a1, 0)]` — `addEventListener` appended the inverse
handler without removing the old one, so the next activation requests
the `1` transition again (and `0` besides): the rebind is not atomic
with the flip and the same transition is requested by two successive
activations. -/
theorem rebind_duplicate_transition_eval :
    (getElementById demoHydrated.doc ("vote-a1".toList)).map clickRequests =
      some [(("a1".toList), (1 : Int))] ∧
    (getElementById demoUp.world.doc ("vote-a1".toList)).map clickRequests =
      some [(("a1".toList), (1 : Int)), (("a1".toList), (0 : Int))] := by
  exact ⟨rfl, rfl⟩

/-- C3: evaluation at the failing input. `tryvote(a1, 2)` surfaces
`Invalid vote!` but, lacking a `return` after the check (and having
already run `get_id`), still issues the `/vote/` request carrying the
out-of-range value 2 — the claim that no `cast_vote` request is issued
is violated by the code. -/
theorem invalid_vote_still_requests_eval :
    (tryvote demoW0 ("a1".toList) 2 (.error []) (.ok ⟨200, []⟩)).statuses =
      [("Invalid vote!".toList)] ∧
    (tryvote demoW0 ("a1".toList) 2 (.error []) (.ok ⟨200, []⟩)).requests =
      [.voteReq ("a1".toList) ("v1".toList) 2] := by
  exact ⟨rfl, rfl⟩
